import Mathlib

/-!
# Verification of the FITS serializer unit (`dynimage_fitsio.rs`)

This file gives a shallow embedding of the FITS-serialization unit of the
`image-rs` fork: the `FitsCompression` selector, the `image_type` /
`image_size` mappings, and the `savefits` operation of `DynamicImage`.

External collaborators (the `fitsio` writer, the file system, the system
clock, the chrono formatter, and the image/metadata container types) are
modelled explicitly:

* file-system and writer effects are recorded in an ordered trace of
  `FitsAction`s, so that claims about layout, ordering and "no mutation
  before an error" can be stated;
* the file-system state visible to `savefits` (existence / directory
  checks) is an injected `FsState`;
* the system clock is injected as the readings the code would obtain:
  `savefits` can call `SystemTime::now()` up to twice (once for `DATE-OBS`,
  once for `TIMESTAMP`), so two readings `now1`, `now2` are passed in,
  each an instant in nanoseconds since the Unix epoch (negative = before
  the epoch);
* `SystemTime` instants are modelled as `Int` nanoseconds since the Unix
  epoch; `f32`/`f64` samples are carried opaquely (samples by their bit
  pattern as `Nat`, numeric metadata readings as `Int`) since the unit
  only forwards them verbatim.
-/

set_option maxHeartbeats 1000000
set_option autoImplicit false

/-- Compression algorithms used in FITS files (`enum FitsCompression`). -/
inductive FitsCompression where
  /-- No compression. -/
  | none
  /-- GZIP compression. -/
  | gzip
  /-- Rice compression. -/
  | rice
  /-- HCOMPRESS compression. -/
  | hcompress
  /-- HCOMPRESS with smoothing. -/
  | hsmooth
  /-- BZIP2 compression. -/
  | bzip2
  /-- PLIO compression. -/
  | plio
deriving DecidableEq, Repr

/-- `FitsCompression::extension`: the extension/qualifier string appended to
the base path to select the on-disk compression. -/
def FitsCompression.extension : FitsCompression → String
  | .none => "fits"
  | .gzip => "fits[compress G]"
  | .rice => "fits[compress R]"
  | .hcompress => "fits[compress H]"
  | .hsmooth => "fits[compress HS]"
  | .bzip2 => "fits[compress B]"
  | .plio => "fits[compress P]"

/-- `impl ToString for FitsCompression`: human-readable algorithm name
written into the header. -/
def FitsCompression.toString : FitsCompression → String
  | .none => "uncomp"
  | .gzip => "gzip"
  | .rice => "rice"
  | .hcompress => "hcompress"
  | .hsmooth => "hscompress"
  | .bzip2 => "bzip2"
  | .plio => "plio"

/-- `impl From<Option<FitsCompression>> for FitsCompression`:
`opt.unwrap_or(FitsCompression::None)`. -/
def FitsCompression.ofOption (opt : Option FitsCompression) : FitsCompression :=
  opt.getD .none

/-- Model of a file-system path as seen by this unit.  `savefits` only
manipulates the extension component (Rust `PathBuf::set_extension`, which
replaces everything after the last dot of the file name), so a path is
modelled as a stem plus an optional extension. -/
structure FsPath where
  stem : String
  ext : Option String
deriving DecidableEq, Repr

/-- Model of Rust `PathBuf::set_extension`: force the extension component. -/
def FsPath.setExtension (p : FsPath) (e : String) : FsPath :=
  { p with ext := some e }

/-- The file-system state visible to `savefits`: models `Path::exists` and
`Path::is_dir` at the instant of the call. -/
structure FsState where
  pathExists : FsPath → Bool
  isDir : FsPath → Bool

/-- `fitsio::images::ImageType` (the three values this unit uses). -/
inductive ImageType where
  | unsignedByte
  | unsignedShort
  | float
deriving DecidableEq, Repr

/-- `fitsio::images::ImageDescription`: on-disk sample type plus dimension
vector. -/
structure ImageDescription where
  data_type : ImageType
  dimensions : List Nat
deriving DecidableEq, Repr

/-- An extended metadata entry (caller-defined key/value text pair).
Modelled from the spec: the metadata container type lives outside this
unit; the serializer reads `obj.name` and `obj.value`. -/
structure ExtendedEntry where
  name : String
  value : String
deriving DecidableEq, Repr

/-- Modelled from the spec: the optional acquisition metadata attached to an
image (camera name, capture timestamp, binning, pixel size, exposure,
temperature, origin, offset, gain range, extended pairs).  The container
type is external to this unit; `savefits` only reads its fields.  The
timestamp is an instant in nanoseconds since the Unix epoch (negative means
before the epoch); other numeric readings are carried opaquely as `Int` —
the serializer forwards them into header records without arithmetic. -/
structure ImgMetadata where
  cameraName : String
  timestampNs : Int
  binX : Int
  binY : Int
  pixszX : Int
  pixszY : Int
  exposureSecs : Int
  temperatureVal : Int
  orgX : Int
  orgY : Int
  offsetVal : Int
  gainVal : Int
  gainMin : Int
  gainMax : Int
  extended : List ExtendedEntry
deriving DecidableEq, Repr

/-- `metadata.camera_name()`. -/
def ImgMetadata.camera_name (m : ImgMetadata) : String := m.cameraName

/-- `metadata.timestamp()` (an instant, ns since the Unix epoch). -/
def ImgMetadata.timestamp (m : ImgMetadata) : Int := m.timestampNs

/-- `meta.binning()`. -/
def ImgMetadata.binning (m : ImgMetadata) : Int × Int := (m.binX, m.binY)

/-- `meta.pixel_size()`. -/
def ImgMetadata.pixel_size (m : ImgMetadata) : Int × Int := (m.pixszX, m.pixszY)

/-- `meta.exposure().as_secs_f64()` (the seconds reading, carried opaquely). -/
def ImgMetadata.exposure (m : ImgMetadata) : Int := m.exposureSecs

/-- `meta.temperature()`. -/
def ImgMetadata.temperature (m : ImgMetadata) : Int := m.temperatureVal

/-- `meta.origin()`. -/
def ImgMetadata.origin (m : ImgMetadata) : Int × Int := (m.orgX, m.orgY)

/-- `meta.offset()`. -/
def ImgMetadata.offset (m : ImgMetadata) : Int := m.offsetVal

/-- `meta.gain()` — `(gain, min_gain, max_gain)`. -/
def ImgMetadata.gain (m : ImgMetadata) : Int × Int × Int :=
  (m.gainVal, m.gainMin, m.gainMax)

/-- `meta.extended_metadata()`. -/
def ImgMetadata.extended_metadata (m : ImgMetadata) : List ExtendedEntry :=
  m.extended

/-- Modelled from the spec: a dense pixel buffer owned by one image
variant — width, height, flattened samples (each sample carried opaquely as
its bit pattern; the serializer writes the buffer verbatim), and the
optional metadata attached to the image. -/
structure ImageBuf where
  width : Nat
  height : Nat
  pixels : List Nat
  meta : Option ImgMetadata
deriving DecidableEq, Repr

/-- `p.inner_pixels()`: the flattened numeric-sample view of the buffer. -/
def ImageBuf.inner_pixels (p : ImageBuf) : List Nat := p.pixels

/-- `enum DynamicImage`: the tagged union over the ten pixel-format
variants.  The container type is external to this unit; the serializer
reads the variant tag, width, height, flattened samples and metadata. -/
inductive DynamicImage where
  | ImageLuma8 (p : ImageBuf)
  | ImageLumaA8 (p : ImageBuf)
  | ImageRgb8 (p : ImageBuf)
  | ImageRgba8 (p : ImageBuf)
  | ImageLuma16 (p : ImageBuf)
  | ImageLumaA16 (p : ImageBuf)
  | ImageRgb16 (p : ImageBuf)
  | ImageRgba16 (p : ImageBuf)
  | ImageRgb32F (p : ImageBuf)
  | ImageRgba32F (p : ImageBuf)
deriving DecidableEq, Repr

/-- The buffer owned by the variant. -/
def DynamicImage.buf : DynamicImage → ImageBuf
  | .ImageLuma8 p | .ImageLumaA8 p | .ImageRgb8 p | .ImageRgba8 p
  | .ImageLuma16 p | .ImageLumaA16 p | .ImageRgb16 p | .ImageRgba16 p
  | .ImageRgb32F p | .ImageRgba32F p => p

/-- `self.width()`. -/
def DynamicImage.width (img : DynamicImage) : Nat := img.buf.width

/-- `self.height()`. -/
def DynamicImage.height (img : DynamicImage) : Nat := img.buf.height

/-- `self.metadata()`. -/
def DynamicImage.metadata (img : DynamicImage) : Option ImgMetadata :=
  img.buf.meta

/-- The variant tag, numbered in source order; two images are "of the same
variant" when their tags agree. -/
def DynamicImage.tag : DynamicImage → Nat
  | .ImageLuma8 _ => 0
  | .ImageLumaA8 _ => 1
  | .ImageRgb8 _ => 2
  | .ImageRgba8 _ => 3
  | .ImageLuma16 _ => 4
  | .ImageLumaA16 _ => 5
  | .ImageRgb16 _ => 6
  | .ImageRgba16 _ => 7
  | .ImageRgb32F _ => 8
  | .ImageRgba32F _ => 9

/-- `DynamicImage::image_type`: the on-disk numeric sample type of each
variant. -/
def DynamicImage.image_type : DynamicImage → ImageType
  | .ImageLuma8 _ | .ImageLumaA8 _ | .ImageRgb8 _ | .ImageRgba8 _ =>
      .unsignedByte
  | .ImageLuma16 _ | .ImageLumaA16 _ | .ImageRgb16 _ | .ImageRgba16 _ =>
      .unsignedShort
  | .ImageRgb32F _ | .ImageRgba32F _ => .float

/-- `DynamicImage::image_size`: the FITS dimension vector of each variant. -/
def DynamicImage.image_size (img : DynamicImage) : List Nat :=
  let width := img.width
  let height := img.height
  let numpix : Nat :=
    match img with
    | .ImageLuma8 _ | .ImageLuma16 _ => 1
    | .ImageLumaA8 _ | .ImageLumaA16 _ => 2
    | .ImageRgb8 _ | .ImageRgb16 _ => 3
    | .ImageRgba8 _ | .ImageRgba16 _ => 4
    | .ImageRgb32F _ => 3
    | .ImageRgba32F _ => 4
  if numpix = 1 then [height, width] else [height, width, numpix]

/-- The flattened sample buffer written by `savefits`'s ten-way match
(`p.inner_pixels()` in every arm). -/
def DynamicImage.inner_pixels : DynamicImage → List Nat
  | .ImageLuma8 p | .ImageLumaA8 p | .ImageRgb8 p | .ImageRgba8 p
  | .ImageLuma16 p | .ImageLumaA16 p | .ImageRgb16 p | .ImageRgba16 p
  | .ImageRgb32F p | .ImageRgba32F p => p.inner_pixels

/-! ## Time model

`SystemTime` instants are `Int` nanoseconds since the Unix epoch.
`duration_since(UNIX_EPOCH)` fails exactly when the instant is strictly
before the epoch; otherwise it yields the nonnegative duration. -/

/-- Display text of Rust's `SystemTimeError` (what
`e.to_string()` produces in the `map_err` at the failed
`duration_since(UNIX_EPOCH)`). -/
def sysTimeErrMsg : String := "second time provided was later than self"

/-- `t.duration_since(UNIX_EPOCH)`: errors iff the instant is strictly
before the epoch, else the duration in nanoseconds. -/
def durationSinceEpoch (t : Int) : Except String Nat :=
  if t < 0 then .error sysTimeErrMsg else .ok t.toNat

/-- `.as_millis() as u64` on a duration given in nanoseconds. -/
def asMillisU64 (ns : Nat) : Nat := (ns / 1000000) % (2 ^ 64)

/-- Left-pad a numeral with zeros to the given width. -/
def padNat (w n : Nat) : String :=
  let s := Nat.repr n
  if s.length < w then String.mk (List.replicate (w - s.length) '0') ++ s
  else s

/-- Days-to-civil-date conversion (proleptic Gregorian), as used by the
chrono collaborator: returns `(year, month, day)` for a day count relative
to 1970-01-01. -/
def civilFromDays (z0 : Int) : Int × Nat × Nat :=
  let z := z0 + 719468
  let era := Int.fdiv z 146097
  let doe := (z - era * 146097).toNat
  let yoe := (doe - doe / 1460 + doe / 36524 - doe / 146096) / 365
  let y : Int := (yoe : Int) + era * 400
  let doy := doe - (365 * yoe + yoe / 4 - yoe / 100)
  let mp := (5 * doy + 2) / 153
  let d := doy - (153 * mp + 2) / 5 + 1
  let m := if mp < 10 then mp + 3 else mp - 9
  (if m ≤ 2 then y + 1 else y, m, d)

/-- Model of the chrono collaborator's
`DateTime::<Utc>::format("%Y-%m-%dT%H:%M:%S%.6f")` on an instant given in
nanoseconds since the Unix epoch. -/
def formatTimestampUtc (ns : Int) : String :=
  let secs := Int.fdiv ns 1000000000
  let subns := (ns - secs * 1000000000).toNat
  let micros := subns / 1000
  let days := Int.fdiv secs 86400
  let sod := (secs - days * 86400).toNat
  let ymd := civilFromDays days
  let y := ymd.1
  let m := ymd.2.1
  let d := ymd.2.2
  let yearStr := if y < 0 then "-" ++ padNat 4 (-y).toNat else padNat 4 y.toNat
  yearStr ++ "-" ++ padNat 2 m ++ "-" ++ padNat 2 d ++ "T" ++
    padNat 2 (sod / 3600) ++ ":" ++ padNat 2 (sod % 3600 / 60) ++ ":" ++
    padNat 2 (sod % 60) ++ "." ++ padNat 6 micros

/-! ## Writer-effect model

Every file-system or `fitsio`-writer effect `savefits` performs is recorded
in order in a trace of `FitsAction`s. -/

/-- `fitsio::errors::Error` as this unit produces it: the unit only ever
constructs `Error::Message`. -/
inductive FitsError where
  | message (s : String)
deriving DecidableEq, Repr

/-- Which HDU a writer effect targets: the primary HDU, or the named
"IMAGE" extension HDU created when compression is enabled. -/
inductive HduId where
  | primary
  | image
deriving DecidableEq, Repr

/-- A typed header-record value (`write_key` is typed by value). -/
inductive KeyVal where
  | str (s : String)
  | int (i : Int)
  | nat (n : Nat)
deriving DecidableEq, Repr

/-- One file-system / writer effect, in the order performed. -/
inductive FitsAction where
  /-- `std::fs::remove_file`. -/
  | removeFile (p : FsPath)
  /-- `FitsFile::create(..).overwrite()?.with_custom_primary(..)?.open()`:
  file creation, with the overwrite directive and the optional custom
  primary-HDU description. -/
  | createFile (p : FsPath) (overwrite : Bool) (customPrimary : Option ImageDescription)
  /-- `hdu.write_key(..)`. -/
  | writeKey (hdu : HduId) (key : String) (val : KeyVal)
  /-- `fptr.create_image(name, desc)`: creation of a named extension HDU. -/
  | createImage (name : String) (desc : ImageDescription)
  /-- `hdu.write_image(..)`: the flattened pixel buffer written verbatim. -/
  | writeImage (hdu : HduId) (pix : List Nat)
deriving DecidableEq, Repr

/-- The HDU that receives the pixel data and the metadata keys: the primary
HDU when uncompressed, the "IMAGE" extension HDU otherwise. -/
def dataHdu (compress : FitsCompression) : HduId :=
  if compress = FitsCompression.none then .primary else .image

/-- The header records written inside `if let Some(meta) = self.metadata()`:
the thirteen fixed metadata keys followed by one record per extended
key/value pair, in caller order. -/
def metadataActs (hdu : HduId) : Option ImgMetadata → List FitsAction
  | Option.none => []
  | Option.some m =>
    [FitsAction.writeKey hdu "XBINNING" (.int m.binning.1),
     FitsAction.writeKey hdu "YBINNING" (.int m.binning.2),
     FitsAction.writeKey hdu "XPIXSZ" (.int m.pixel_size.1),
     FitsAction.writeKey hdu "YPIXSZ" (.int m.pixel_size.2),
     FitsAction.writeKey hdu "EXPTIME" (.int m.exposure),
     FitsAction.writeKey hdu "CCD-TEMP" (.int m.temperature),
     FitsAction.writeKey hdu "XORIGIN" (.int m.origin.1),
     FitsAction.writeKey hdu "YORIGIN" (.int m.origin.2),
     FitsAction.writeKey hdu "OFFSET" (.int m.offset),
     FitsAction.writeKey hdu "GAIN" (.int m.gain.1),
     FitsAction.writeKey hdu "GAIN_MIN" (.int m.gain.2.1),
     FitsAction.writeKey hdu "GAIN_MAX" (.int m.gain.2.2)]
    ++ m.extended_metadata.map (fun obj => FitsAction.writeKey hdu obj.name (.str obj.value))

/-- The straight-line tail of `savefits` after the camera name, `DATE-OBS`
string and `TIMESTAMP` value have been computed: image description, path
resolution (base = forced "fits" extension; delete it when overwriting an
existing file; final = compression extension on the same base), file
creation, HDU layout, pixel write, and header-record writes.  Returns the
final path and the effect trace. -/
def savefitsWrite (img : DynamicImage) (path0 : FsPath)
    (compress : FitsCompression) (overwrite : Bool) (fs : FsState)
    (cameraname dateobs : String) (ts : Nat) : FsPath × List FitsAction :=
  let img_desc : ImageDescription :=
    { data_type := img.image_type, dimensions := img.image_size }
  let base := path0.setExtension FitsCompression.none.extension
  let rmActs : List FitsAction :=
    if overwrite && fs.pathExists base then [FitsAction.removeFile base] else []
  let path := base.setExtension compress.extension
  let createAct := FitsAction.createFile path overwrite
    (if compress = FitsCompression.none then some img_desc else Option.none)
  let hduPair : HduId × List FitsAction :=
    if compress = FitsCompression.none then (HduId.primary, [])
    else
      (HduId.image,
       [FitsAction.writeKey .primary "COMPRESSED_IMAGE" (.str "T"),
        FitsAction.writeKey .primary "COMPRESSION_ALGO" (.str compress.toString),
        FitsAction.createImage "IMAGE" img_desc])
  let hdu := hduPair.1
  let pixAct :=
    match img with
    | .ImageLuma8 p => FitsAction.writeImage hdu p.inner_pixels
    | .ImageLumaA8 p => FitsAction.writeImage hdu p.inner_pixels
    | .ImageRgb8 p => FitsAction.writeImage hdu p.inner_pixels
    | .ImageRgba8 p => FitsAction.writeImage hdu p.inner_pixels
    | .ImageLuma16 p => FitsAction.writeImage hdu p.inner_pixels
    | .ImageLumaA16 p => FitsAction.writeImage hdu p.inner_pixels
    | .ImageRgb16 p => FitsAction.writeImage hdu p.inner_pixels
    | .ImageRgba16 p => FitsAction.writeImage hdu p.inner_pixels
    | .ImageRgb32F p => FitsAction.writeImage hdu p.inner_pixels
    | .ImageRgba32F p => FitsAction.writeImage hdu p.inner_pixels
  let keyActs :=
    [FitsAction.writeKey hdu "CAMERA" (.str cameraname),
     FitsAction.writeKey hdu "DATE-OBS" (.str dateobs),
     FitsAction.writeKey hdu "TIMESTAMP" (.nat ts)]
    ++ metadataActs hdu img.metadata
  (path, rmActs ++ [createAct] ++ hduPair.2 ++ [pixAct] ++ keyActs)

/-- `DynamicImage::savefits(path, compress, overwrite)`.

Arguments beyond the source signature are the injected collaborators: the
file-system state `fs` and the clock readings `now1`, `now2` (the values
`SystemTime::now()` would return at its first and second call site — the
code reads the clock once for `DATE-OBS` and once more for `TIMESTAMP`
when no metadata is attached).

Returns the result (final path or error) together with the ordered trace
of file-system/writer effects performed before returning. -/
def savefits (img : DynamicImage) (path : FsPath) (compress : FitsCompression)
    (overwrite : Bool) (fs : FsState) (now1 now2 : Int) :
    Except FitsError FsPath × List FitsAction :=
  if fs.pathExists path && fs.isDir path then
    (.error (.message "Path is a directory"), [])
  else
    let timestampSrc : Int :=
      match img.metadata with
      | Option.some metadata => metadata.timestamp
      | Option.none => now1
    let timestamp : String := formatTimestampUtc timestampSrc
    match img.metadata with
    | Option.some metadata =>
      match durationSinceEpoch metadata.timestamp with
      | .error e => (.error (.message e), [])
      | .ok dur =>
        let cameraname := metadata.camera_name
        let ts := asMillisU64 dur
        let r := savefitsWrite img path compress overwrite fs cameraname timestamp ts
        (.ok r.1, r.2)
    | Option.none =>
      let cameraname := "unknown"
      let dur := (durationSinceEpoch now2).toOption.getD 0
      let ts := asMillisU64 dur
      let r := savefitsWrite img path compress overwrite fs cameraname timestamp ts
      (.ok r.1, r.2)

/-! ## Branch characterizations of the embedding -/

/-- The two-write trace segment of the compressed branch, named for reuse
in statements: marker keys into the primary HDU, then the "IMAGE" HDU. -/
theorem metadataActs_none (hdu : HduId) : metadataActs hdu Option.none = [] := rfl

theorem mem_metadataActs {hdu : HduId} {o : Option ImgMetadata} {a : FitsAction}
    (ha : a ∈ metadataActs hdu o) : ∃ k v, a = FitsAction.writeKey hdu k v := by
  cases o with
  | none => simp [metadataActs] at ha
  | some m =>
    simp only [metadataActs, List.mem_append, List.mem_cons, List.mem_map,
      List.not_mem_nil, or_false] at ha
    rcases ha with ha | ha
    · rcases ha with h | h | h | h | h | h | h | h | h | h | h | h <;>
        exact ⟨_, _, h⟩
    · obtain ⟨obj, _, h⟩ := ha
      exact ⟨_, _, h.symm⟩

/-- `savefitsWrite` in the uncompressed case, with the trace flattened. -/
theorem savefitsWrite_none_eq (img : DynamicImage) (path : FsPath) (ow : Bool)
    (fs : FsState) (cn dob : String) (ts : Nat) :
    savefitsWrite img path FitsCompression.none ow fs cn dob ts =
      (path.setExtension "fits",
       (if ow && fs.pathExists (path.setExtension "fits") then
          [FitsAction.removeFile (path.setExtension "fits")] else [])
       ++ FitsAction.createFile (path.setExtension "fits") ow
            (some { data_type := img.image_type, dimensions := img.image_size })
          :: FitsAction.writeImage HduId.primary img.inner_pixels
          :: FitsAction.writeKey HduId.primary "CAMERA" (.str cn)
          :: FitsAction.writeKey HduId.primary "DATE-OBS" (.str dob)
          :: FitsAction.writeKey HduId.primary "TIMESTAMP" (.nat ts)
          :: metadataActs HduId.primary img.metadata) := by
  cases img <;>
    simp [savefitsWrite, FsPath.setExtension, FitsCompression.extension,
      DynamicImage.inner_pixels, DynamicImage.metadata, DynamicImage.buf]

/-- `savefitsWrite` in a compressed case, with the trace flattened. -/
theorem savefitsWrite_comp_eq (img : DynamicImage) (path : FsPath)
    (c : FitsCompression) (ow : Bool) (fs : FsState) (cn dob : String) (ts : Nat)
    (hc : c ≠ FitsCompression.none) :
    savefitsWrite img path c ow fs cn dob ts =
      ((path.setExtension "fits").setExtension c.extension,
       (if ow && fs.pathExists (path.setExtension "fits") then
          [FitsAction.removeFile (path.setExtension "fits")] else [])
       ++ FitsAction.createFile ((path.setExtension "fits").setExtension c.extension)
            ow Option.none
          :: FitsAction.writeKey HduId.primary "COMPRESSED_IMAGE" (.str "T")
          :: FitsAction.writeKey HduId.primary "COMPRESSION_ALGO" (.str c.toString)
          :: FitsAction.createImage "IMAGE"
               { data_type := img.image_type, dimensions := img.image_size }
          :: FitsAction.writeImage HduId.image img.inner_pixels
          :: FitsAction.writeKey HduId.image "CAMERA" (.str cn)
          :: FitsAction.writeKey HduId.image "DATE-OBS" (.str dob)
          :: FitsAction.writeKey HduId.image "TIMESTAMP" (.nat ts)
          :: metadataActs HduId.image img.metadata) := by
  cases img <;>
    simp [savefitsWrite, hc, FsPath.setExtension, FitsCompression.extension,
      DynamicImage.inner_pixels, DynamicImage.metadata, DynamicImage.buf]

/-- A successful `savefits` run took one of the two non-error branches:
either metadata is attached with a timestamp at or after the epoch (camera
name, `DATE-OBS` and `TIMESTAMP` all derived from that metadata), or no
metadata is attached (camera "unknown", `DATE-OBS` from the first clock
reading, `TIMESTAMP` from the second, clamped at the epoch); in both the
directory check passed, and the result is `savefitsWrite` on the derived
header values. -/
theorem savefits_ok_inv {img : DynamicImage} {path : FsPath}
    {c : FitsCompression} {ow : Bool} {fs : FsState} {now1 now2 : Int}
    {fp : FsPath} {tr : List FitsAction}
    (h : savefits img path c ow fs now1 now2 = (.ok fp, tr)) :
    (fs.pathExists path && fs.isDir path) = false ∧
      ((∃ m, img.metadata = some m ∧ 0 ≤ m.timestamp ∧
          (fp, tr) = savefitsWrite img path c ow fs m.camera_name
            (formatTimestampUtc m.timestamp) (asMillisU64 m.timestamp.toNat)) ∨
        (img.metadata = Option.none ∧
          (fp, tr) = savefitsWrite img path c ow fs "unknown"
            (formatTimestampUtc now1)
            (asMillisU64 ((durationSinceEpoch now2).toOption.getD 0)))) := by
  unfold savefits at h
  by_cases hd : (fs.pathExists path && fs.isDir path) = true
  · rw [if_pos hd] at h
    simp at h
  · rw [if_neg hd] at h
    refine ⟨Bool.not_eq_true _ ▸ hd, ?_⟩
    cases hm : img.metadata with
    | none =>
      simp only [hm] at h
      obtain ⟨h1, h2⟩ := Prod.mk.injEq .. ▸ h
      exact Or.inr ⟨rfl, by
        rw [Prod.ext_iff]
        exact ⟨(Except.ok.injEq .. ▸ h1).symm, h2.symm⟩⟩
    | some m =>
      simp only [hm] at h
      by_cases hts : m.timestamp < 0
      · rw [show durationSinceEpoch m.timestamp = .error sysTimeErrMsg from
          if_pos hts] at h
        simp at h
      · rw [show durationSinceEpoch m.timestamp = .ok m.timestamp.toNat from
          if_neg hts] at h
        obtain ⟨h1, h2⟩ := Prod.mk.injEq .. ▸ h
        exact Or.inl ⟨m, rfl, le_of_not_lt hts, by
          rw [Prod.ext_iff]
          exact ⟨(Except.ok.injEq .. ▸ h1).symm, h2.symm⟩⟩

/-! ## Claims -/

/-- C3: if the destination path exists and is a directory, `savefits`
returns the path-conflict error (`Error::Message "Path is a directory"`),
and it does so before any file-system mutation: the effect trace is empty,
so no file is deleted or created. -/
theorem C3_path_conflict (img : DynamicImage) (path : FsPath)
    (c : FitsCompression) (ow : Bool) (fs : FsState) (now1 now2 : Int)
    (h1 : fs.pathExists path = true) (h2 : fs.isDir path = true) :
    savefits img path c ow fs now1 now2 =
      (.error (.message "Path is a directory"), []) := by
  unfold savefits
  rw [if_pos (by rw [h1, h2]; rfl)]

/-- Witness for C3 at a concrete call: an existing directory destination. -/
theorem C3_path_conflict_witness :
    savefits (DynamicImage.ImageLuma8 ⟨1, 1, [0], Option.none⟩)
      ⟨"d", Option.none⟩ FitsCompression.gzip true
      ⟨fun _ => true, fun _ => true⟩ 3 4 =
      (.error (.message "Path is a directory"), []) :=
  C3_path_conflict _ _ _ _ _ _ _ rfl rfl

/-- C4: the dimension vector of each variant — the two mono variants yield
the 2-element vector `[height, width]`; every other variant yields
`[height, width, channels]` with mono+alpha = 2, RGB = 3 and RGBA = 4
channels. -/
theorem C4_dimension_vector (p : ImageBuf) :
    (DynamicImage.ImageLuma8 p).image_size = [p.height, p.width] ∧
    (DynamicImage.ImageLuma16 p).image_size = [p.height, p.width] ∧
    (DynamicImage.ImageLumaA8 p).image_size = [p.height, p.width, 2] ∧
    (DynamicImage.ImageLumaA16 p).image_size = [p.height, p.width, 2] ∧
    (DynamicImage.ImageRgb8 p).image_size = [p.height, p.width, 3] ∧
    (DynamicImage.ImageRgb16 p).image_size = [p.height, p.width, 3] ∧
    (DynamicImage.ImageRgb32F p).image_size = [p.height, p.width, 3] ∧
    (DynamicImage.ImageRgba8 p).image_size = [p.height, p.width, 4] ∧
    (DynamicImage.ImageRgba16 p).image_size = [p.height, p.width, 4] ∧
    (DynamicImage.ImageRgba32F p).image_size = [p.height, p.width, 4] :=
  ⟨rfl, rfl, rfl, rfl, rfl, rfl, rfl, rfl, rfl, rfl⟩

/-- C5: the on-disk sample type of each variant — unsigned byte for the
four 8-bit variants, unsigned short for the four 16-bit variants, float
for the two 32-bit-float variants; the ten equations cover every variant,
so the mapping is total. -/
theorem C5_sample_type (p : ImageBuf) :
    (DynamicImage.ImageLuma8 p).image_type = ImageType.unsignedByte ∧
    (DynamicImage.ImageLumaA8 p).image_type = ImageType.unsignedByte ∧
    (DynamicImage.ImageRgb8 p).image_type = ImageType.unsignedByte ∧
    (DynamicImage.ImageRgba8 p).image_type = ImageType.unsignedByte ∧
    (DynamicImage.ImageLuma16 p).image_type = ImageType.unsignedShort ∧
    (DynamicImage.ImageLumaA16 p).image_type = ImageType.unsignedShort ∧
    (DynamicImage.ImageRgb16 p).image_type = ImageType.unsignedShort ∧
    (DynamicImage.ImageRgba16 p).image_type = ImageType.unsignedShort ∧
    (DynamicImage.ImageRgb32F p).image_type = ImageType.float ∧
    (DynamicImage.ImageRgba32F p).image_type = ImageType.float :=
  ⟨rfl, rfl, rfl, rfl, rfl, rfl, rfl, rfl, rfl, rfl⟩

/-- C8: `image_type` and `image_size` depend only on the variant tag, the
width and the height — two images of the same variant with equal width and
height but arbitrarily different pixel buffers (and metadata) map to the
same sample type and the same dimension vector. -/
theorem C8_content_independence (a b : DynamicImage)
    (ht : a.tag = b.tag) (hw : a.width = b.width) (hh : a.height = b.height) :
    a.image_type = b.image_type ∧ a.image_size = b.image_size := by
  cases a <;> cases b <;>
    simp_all [DynamicImage.tag, DynamicImage.image_type,
      DynamicImage.image_size, DynamicImage.width, DynamicImage.height,
      DynamicImage.buf]

/-- Witness for C8 at concrete inputs: two 2×3 mono-8 images with
different pixel values (and one with metadata attached). -/
theorem C8_content_independence_witness :
    (DynamicImage.ImageLuma8 ⟨2, 3, [1, 2, 3, 4, 5, 6], Option.none⟩).image_type =
      (DynamicImage.ImageLuma8 ⟨2, 3, [9, 9, 9, 9, 9, 9],
        some ⟨"cam", 7, 1, 1, 1, 1, 1, 1, 0, 0, 0, 0, 0, 0, []⟩⟩).image_type ∧
    (DynamicImage.ImageLuma8 ⟨2, 3, [1, 2, 3, 4, 5, 6], Option.none⟩).image_size =
      (DynamicImage.ImageLuma8 ⟨2, 3, [9, 9, 9, 9, 9, 9],
        some ⟨"cam", 7, 1, 1, 1, 1, 1, 1, 0, 0, 0, 0, 0, 0, []⟩⟩).image_size :=
  C8_content_independence _ _ rfl rfl rfl

/-- The `TIMESTAMP` record with the computed millisecond value is among the
writes of `savefitsWrite`, targeted at the data HDU. -/
theorem timestamp_mem_savefitsWrite (img : DynamicImage) (path : FsPath)
    (c : FitsCompression) (ow : Bool) (fs : FsState) (cn dob : String)
    (ts : Nat) :
    FitsAction.writeKey (dataHdu c) "TIMESTAMP" (.nat ts) ∈
      (savefitsWrite img path c ow fs cn dob ts).2 := by
  by_cases hc : c = FitsCompression.none
  · subst hc
    rw [savefitsWrite_none_eq]
    simp [dataHdu]
  · rw [savefitsWrite_comp_eq _ _ _ _ _ _ _ _ hc]
    simp [dataHdu, hc]

/-- The `DATE-OBS` record with the formatted instant is among the writes of
`savefitsWrite`, targeted at the data HDU. -/
theorem dateobs_mem_savefitsWrite (img : DynamicImage) (path : FsPath)
    (c : FitsCompression) (ow : Bool) (fs : FsState) (cn dob : String)
    (ts : Nat) :
    FitsAction.writeKey (dataHdu c) "DATE-OBS" (.str dob) ∈
      (savefitsWrite img path c ow fs cn dob ts).2 := by
  by_cases hc : c = FitsCompression.none
  · subst hc
    rw [savefitsWrite_none_eq]
    simp [dataHdu]
  · rw [savefitsWrite_comp_eq _ _ _ _ _ _ _ _ hc]
    simp [dataHdu, hc]

/-- C9: if metadata is attached and its capture timestamp lies strictly
before the Unix epoch, `savefits` errors out with the effect trace still
empty — no file has been deleted or created — and, unless the earlier
directory check already rejected the path, the error is the surfaced
duration-since-epoch failure message. -/
theorem C9_pre_epoch_metadata (img : DynamicImage) (m : ImgMetadata)
    (path : FsPath) (c : FitsCompression) (ow : Bool) (fs : FsState)
    (now1 now2 : Int) (hm : img.metadata = some m) (hts : m.timestamp < 0) :
    (savefits img path c ow fs now1 now2).2 = [] ∧
    (∃ e, (savefits img path c ow fs now1 now2).1 = Except.error e) ∧
    ((fs.pathExists path && fs.isDir path) = false →
      (savefits img path c ow fs now1 now2).1 =
        Except.error (.message sysTimeErrMsg)) := by
  unfold savefits
  by_cases hd : (fs.pathExists path && fs.isDir path) = true
  · rw [if_pos hd]
    refine ⟨rfl, ⟨_, rfl⟩, fun hc => ?_⟩
    rw [hc] at hd
    exact absurd hd (by simp)
  · rw [if_neg hd]
    simp only [hm]
    rw [show durationSinceEpoch m.timestamp = .error sysTimeErrMsg from
      if_pos hts]
    exact ⟨rfl, ⟨_, rfl⟩, fun _ => rfl⟩

/-- Witness for C9 at a concrete call: metadata with timestamp −5 ns. -/
theorem C9_pre_epoch_metadata_witness :
    (savefits (DynamicImage.ImageLuma8 ⟨1, 1, [0],
        some ⟨"c", -5, 0, 0, 0, 0, 0, 0, 0, 0, 0, 0, 0, 0, []⟩⟩)
      ⟨"d", Option.none⟩ FitsCompression.rice false
      ⟨fun _ => false, fun _ => false⟩ 3 4).2 = [] ∧
    (∃ e, (savefits (DynamicImage.ImageLuma8 ⟨1, 1, [0],
        some ⟨"c", -5, 0, 0, 0, 0, 0, 0, 0, 0, 0, 0, 0, 0, []⟩⟩)
      ⟨"d", Option.none⟩ FitsCompression.rice false
      ⟨fun _ => false, fun _ => false⟩ 3 4).1 = Except.error e) ∧
    ((((⟨fun _ => false, fun _ => false⟩ : FsState).pathExists
          ⟨"d", Option.none⟩ &&
        (⟨fun _ => false, fun _ => false⟩ : FsState).isDir
          ⟨"d", Option.none⟩) = false) →
      (savefits (DynamicImage.ImageLuma8 ⟨1, 1, [0],
          some ⟨"c", -5, 0, 0, 0, 0, 0, 0, 0, 0, 0, 0, 0, 0, []⟩⟩)
        ⟨"d", Option.none⟩ FitsCompression.rice false
        ⟨fun _ => false, fun _ => false⟩ 3 4).1 =
        Except.error (.message sysTimeErrMsg)) :=
  C9_pre_epoch_metadata _ _ _ _ _ _ _ _ rfl (by decide)

/-- C10: with no metadata attached, a pre-epoch reading of the system clock
at the `TIMESTAMP` call site does not fail the serialization — the failed
conversion is replaced by a zero duration, the call succeeds (absent a
directory conflict), and `TIMESTAMP` is written as 0 milliseconds into the
data HDU. -/
theorem C10_pre_epoch_clock (img : DynamicImage) (path : FsPath)
    (c : FitsCompression) (ow : Bool) (fs : FsState) (now1 now2 : Int)
    (hm : img.metadata = Option.none) (hn : now2 < 0)
    (hd : (fs.pathExists path && fs.isDir path) = false) :
    ∃ fp tr, savefits img path c ow fs now1 now2 = (.ok fp, tr) ∧
      FitsAction.writeKey (dataHdu c) "TIMESTAMP" (.nat 0) ∈ tr := by
  have hz : asMillisU64 ((durationSinceEpoch now2).toOption.getD 0) = 0 := by
    rw [show durationSinceEpoch now2 = .error sysTimeErrMsg from if_pos hn]
    rfl
  unfold savefits
  rw [if_neg (by rw [hd]; exact Bool.false_ne_true)]
  simp only [hm]
  refine ⟨_, _, rfl, ?_⟩
  rw [hz]
  exact timestamp_mem_savefitsWrite img path c ow fs "unknown"
    (formatTimestampUtc now1) 0

/-- Witness for C10 at a concrete call: no metadata, second clock reading
−7 ns. -/
theorem C10_pre_epoch_clock_witness :
    ∃ fp tr, savefits (DynamicImage.ImageLuma8 ⟨1, 1, [0], Option.none⟩)
        ⟨"d", Option.none⟩ FitsCompression.gzip false
        ⟨fun _ => false, fun _ => false⟩ 3 (-7) = (.ok fp, tr) ∧
      FitsAction.writeKey (dataHdu FitsCompression.gzip) "TIMESTAMP"
        (.nat 0) ∈ tr :=
  C10_pre_epoch_clock _ _ _ _ _ _ _ rfl (by decide) rfl

theorem metadataActs_no_rm {hdu : HduId} {o : Option ImgMetadata} {q : FsPath} :
    FitsAction.removeFile q ∉ metadataActs hdu o := by
  intro hq
  obtain ⟨k, v, hkv⟩ := mem_metadataActs hq
  simp at hkv

theorem metadataActs_no_create {hdu : HduId} {o : Option ImgMetadata}
    {q : FsPath} {b : Bool} {d : Option ImageDescription} :
    FitsAction.createFile q b d ∉ metadataActs hdu o := by
  intro hq
  obtain ⟨k, v, hkv⟩ := mem_metadataActs hq
  simp at hkv

/-- The HDU layout of a successful write, split by compression mode:
uncompressed → one file created with the custom primary description, pixel
data and header keys into the primary HDU, no marker keys anywhere in the
trace; compressed → file created without a custom primary description, the
two marker keys into the primary HDU, then the named "IMAGE" HDU with the
description, pixel data and header keys into it. -/
theorem savefitsWrite_layout {img : DynamicImage} {path : FsPath}
    {c : FitsCompression} {ow : Bool} {fs : FsState} {cn dob : String}
    {ts : Nat} {fp : FsPath} {tr : List FitsAction}
    (h : (fp, tr) = savefitsWrite img path c ow fs cn dob ts) :
    (c = FitsCompression.none →
      tr = (if ow && fs.pathExists (path.setExtension "fits") then
              [FitsAction.removeFile (path.setExtension "fits")] else [])
        ++ FitsAction.createFile fp ow
             (some { data_type := img.image_type, dimensions := img.image_size })
          :: FitsAction.writeImage HduId.primary img.inner_pixels
          :: FitsAction.writeKey HduId.primary "CAMERA" (.str cn)
          :: FitsAction.writeKey HduId.primary "DATE-OBS" (.str dob)
          :: FitsAction.writeKey HduId.primary "TIMESTAMP" (.nat ts)
          :: metadataActs HduId.primary img.metadata) ∧
    (c ≠ FitsCompression.none →
      tr = (if ow && fs.pathExists (path.setExtension "fits") then
              [FitsAction.removeFile (path.setExtension "fits")] else [])
        ++ FitsAction.createFile fp ow Option.none
          :: FitsAction.writeKey HduId.primary "COMPRESSED_IMAGE" (.str "T")
          :: FitsAction.writeKey HduId.primary "COMPRESSION_ALGO"
               (.str c.toString)
          :: FitsAction.createImage "IMAGE"
               { data_type := img.image_type, dimensions := img.image_size }
          :: FitsAction.writeImage HduId.image img.inner_pixels
          :: FitsAction.writeKey HduId.image "CAMERA" (.str cn)
          :: FitsAction.writeKey HduId.image "DATE-OBS" (.str dob)
          :: FitsAction.writeKey HduId.image "TIMESTAMP" (.nat ts)
          :: metadataActs HduId.image img.metadata) := by
  by_cases hc : c = FitsCompression.none
  · subst hc
    rw [savefitsWrite_none_eq] at h
    obtain ⟨h1, h2⟩ := Prod.mk.injEq .. ▸ h
    exact ⟨fun _ => by rw [h2, h1], fun hne => absurd rfl hne⟩
  · rw [savefitsWrite_comp_eq _ _ _ _ _ _ _ _ hc] at h
    obtain ⟨h1, h2⟩ := Prod.mk.injEq .. ▸ h
    exact ⟨fun he => absurd he hc, fun _ => by rw [h2, h1]⟩

/-- C1: on every successful call, if the compression mode is `None` the
trace creates exactly one HDU — the file is created with the image's
type/shape as custom primary description, no extension HDU is created, no
marker key is written — and the pixel data and all header/metadata records
go into the primary HDU; for every other mode the file is created with no
custom primary description, exactly the marker keys
`COMPRESSED_IMAGE = "T"` and `COMPRESSION_ALGO = <display name>` are
written into the primary HDU, a second HDU named "IMAGE" is created with
the image's type/shape description, and the pixel data and all
header/metadata records go into that second HDU only. -/
theorem C1_hdu_layout (img : DynamicImage) (path : FsPath)
    (c : FitsCompression) (ow : Bool) (fs : FsState) (now1 now2 : Int)
    (fp : FsPath) (tr : List FitsAction)
    (h : savefits img path c ow fs now1 now2 = (.ok fp, tr)) :
    ∃ cn dob ts,
      (c = FitsCompression.none →
        tr = (if ow && fs.pathExists (path.setExtension "fits") then
                [FitsAction.removeFile (path.setExtension "fits")] else [])
          ++ FitsAction.createFile fp ow
               (some { data_type := img.image_type,
                       dimensions := img.image_size })
            :: FitsAction.writeImage HduId.primary img.inner_pixels
            :: FitsAction.writeKey HduId.primary "CAMERA" (.str cn)
            :: FitsAction.writeKey HduId.primary "DATE-OBS" (.str dob)
            :: FitsAction.writeKey HduId.primary "TIMESTAMP" (.nat ts)
            :: metadataActs HduId.primary img.metadata) ∧
      (c ≠ FitsCompression.none →
        tr = (if ow && fs.pathExists (path.setExtension "fits") then
                [FitsAction.removeFile (path.setExtension "fits")] else [])
          ++ FitsAction.createFile fp ow Option.none
            :: FitsAction.writeKey HduId.primary "COMPRESSED_IMAGE" (.str "T")
            :: FitsAction.writeKey HduId.primary "COMPRESSION_ALGO"
                 (.str c.toString)
            :: FitsAction.createImage "IMAGE"
                 { data_type := img.image_type, dimensions := img.image_size }
            :: FitsAction.writeImage HduId.image img.inner_pixels
            :: FitsAction.writeKey HduId.image "CAMERA" (.str cn)
            :: FitsAction.writeKey HduId.image "DATE-OBS" (.str dob)
            :: FitsAction.writeKey HduId.image "TIMESTAMP" (.nat ts)
            :: metadataActs HduId.image img.metadata) := by
  obtain ⟨-, hcase⟩ := savefits_ok_inv h
  rcases hcase with ⟨m, _, -, hw⟩ | ⟨_, hw⟩
  · exact ⟨_, _, _, savefitsWrite_layout hw⟩
  · exact ⟨_, _, _, savefitsWrite_layout hw⟩

/-- Witness for C1 at a concrete call: a 2×1 mono-8 image, no metadata,
GZIP compression — the trace is the dual-HDU layout. -/
theorem C1_hdu_layout_witness :
    ∃ cn dob ts,
      (savefits (DynamicImage.ImageLuma8 ⟨2, 1, [3, 4], Option.none⟩)
        ⟨"out", Option.none⟩ FitsCompression.gzip false
        ⟨fun _ => false, fun _ => false⟩ 5 7).2 =
      [FitsAction.createFile ⟨"out", some "fits[compress G]"⟩ false
         Option.none,
       FitsAction.writeKey HduId.primary "COMPRESSED_IMAGE" (.str "T"),
       FitsAction.writeKey HduId.primary "COMPRESSION_ALGO" (.str "gzip"),
       FitsAction.createImage "IMAGE" ⟨ImageType.unsignedByte, [1, 2]⟩,
       FitsAction.writeImage HduId.image [3, 4],
       FitsAction.writeKey HduId.image "CAMERA" (.str cn),
       FitsAction.writeKey HduId.image "DATE-OBS" (.str dob),
       FitsAction.writeKey HduId.image "TIMESTAMP" (.nat ts)] := by
  obtain ⟨cn, dob, ts, -, h2⟩ :=
    C1_hdu_layout (DynamicImage.ImageLuma8 ⟨2, 1, [3, 4], Option.none⟩)
      ⟨"out", Option.none⟩ FitsCompression.gzip false
      ⟨fun _ => false, fun _ => false⟩ 5 7
      ⟨"out", some "fits[compress G]"⟩
      (savefits (DynamicImage.ImageLuma8 ⟨2, 1, [3, 4], Option.none⟩)
        ⟨"out", Option.none⟩ FitsCompression.gzip false
        ⟨fun _ => false, fun _ => false⟩ 5 7).2 rfl
  exact ⟨cn, dob, ts, by rw [h2 (by decide)]; rfl⟩

/-- Path resolution of a successful write: the returned path is the base
path (input with the uncompressed "fits" extension forced) with the
selected mode's extension/qualifier applied; the base-path deletion happens
first, exactly when overwriting an existing base-extension file; the file
is created at the returned path; and nothing later in the trace deletes or
creates another file. -/
theorem savefitsWrite_path {img : DynamicImage} {path : FsPath}
    {c : FitsCompression} {ow : Bool} {fs : FsState} {cn dob : String}
    {ts : Nat} {fp : FsPath} {tr : List FitsAction}
    (h : (fp, tr) = savefitsWrite img path c ow fs cn dob ts) :
    fp = (path.setExtension FitsCompression.none.extension).setExtension
        c.extension ∧
    ∃ d rest,
      tr = (if ow && fs.pathExists
              (path.setExtension FitsCompression.none.extension) then
              [FitsAction.removeFile
                (path.setExtension FitsCompression.none.extension)]
            else [])
        ++ FitsAction.createFile fp ow d :: rest ∧
      (∀ q, FitsAction.removeFile q ∉ rest) ∧
      (∀ q b dd, FitsAction.createFile q b dd ∉ rest) := by
  have hfits : FitsCompression.none.extension = "fits" := rfl
  by_cases hc : c = FitsCompression.none
  · subst hc
    rw [savefitsWrite_none_eq] at h
    obtain ⟨h1, h2⟩ := Prod.mk.injEq .. ▸ h
    refine ⟨h1, some ⟨img.image_type, img.image_size⟩, _,
      by rw [hfits, h2, h1], ?_, ?_⟩
    · intro q hq
      simp only [List.mem_cons] at hq
      rcases hq with h' | h' | h' | h' | h'
      · simp at h'
      · simp at h'
      · simp at h'
      · simp at h'
      · exact metadataActs_no_rm h'
    · intro q b dd hq
      simp only [List.mem_cons] at hq
      rcases hq with h' | h' | h' | h' | h'
      · simp at h'
      · simp at h'
      · simp at h'
      · simp at h'
      · exact metadataActs_no_create h'
  · rw [savefitsWrite_comp_eq _ _ _ _ _ _ _ _ hc] at h
    obtain ⟨h1, h2⟩ := Prod.mk.injEq .. ▸ h
    refine ⟨h1, Option.none, _, by rw [hfits, h2, h1], ?_, ?_⟩
    · intro q hq
      simp only [List.mem_cons] at hq
      rcases hq with h' | h' | h' | h' | h' | h' | h' | h'
      · simp at h'
      · simp at h'
      · simp at h'
      · simp at h'
      · simp at h'
      · simp at h'
      · simp at h'
      · exact metadataActs_no_rm h'
    · intro q b dd hq
      simp only [List.mem_cons] at hq
      rcases hq with h' | h' | h' | h' | h' | h' | h' | h'
      · simp at h'
      · simp at h'
      · simp at h'
      · simp at h'
      · simp at h'
      · simp at h'
      · simp at h'
      · exact metadataActs_no_create h'

/-- C2: on every successful call, `savefits` forces the uncompressed
"fits" extension onto the destination to obtain the base path; when
`overwrite` holds and the base-extension path exists, that file is deleted
before anything is created; the final path is the same base path with the
selected mode's extension/qualifier applied; the one file creation happens
at that final path (no later action deletes or creates a file); and the
returned path is exactly that final path. -/
theorem C2_path_resolution (img : DynamicImage) (path : FsPath)
    (c : FitsCompression) (ow : Bool) (fs : FsState) (now1 now2 : Int)
    (fp : FsPath) (tr : List FitsAction)
    (h : savefits img path c ow fs now1 now2 = (.ok fp, tr)) :
    fp = (path.setExtension FitsCompression.none.extension).setExtension
        c.extension ∧
    ∃ d rest,
      tr = (if ow && fs.pathExists
              (path.setExtension FitsCompression.none.extension) then
              [FitsAction.removeFile
                (path.setExtension FitsCompression.none.extension)]
            else [])
        ++ FitsAction.createFile fp ow d :: rest ∧
      (∀ q, FitsAction.removeFile q ∉ rest) ∧
      (∀ q b dd, FitsAction.createFile q b dd ∉ rest) := by
  obtain ⟨-, hcase⟩ := savefits_ok_inv h
  rcases hcase with ⟨m, _, -, hw⟩ | ⟨_, hw⟩
  · exact savefitsWrite_path hw
  · exact savefitsWrite_path hw

/-- Witness for C2 at a concrete call: destination "out.txt", Rice
compression, overwrite on, with "out.fits" existing — the base-extension
file is deleted first and the returned path carries the Rice qualifier. -/
theorem C2_path_resolution_witness :
    (⟨"out", some "fits[compress R]"⟩ : FsPath) =
      ((⟨"out", some "txt"⟩ : FsPath).setExtension
        FitsCompression.none.extension).setExtension
        FitsCompression.rice.extension ∧
    ∃ d rest,
      (savefits (DynamicImage.ImageLuma8 ⟨2, 1, [3, 4], Option.none⟩)
        ⟨"out", some "txt"⟩ FitsCompression.rice true
        ⟨fun p => p.ext == some "fits", fun _ => false⟩ 5 7).2 =
      (if true && (⟨fun p => p.ext == some "fits", fun _ => false⟩ :
            FsState).pathExists
            ((⟨"out", some "txt"⟩ : FsPath).setExtension
              FitsCompression.none.extension) then
          [FitsAction.removeFile
            ((⟨"out", some "txt"⟩ : FsPath).setExtension
              FitsCompression.none.extension)]
        else [])
        ++ FitsAction.createFile ⟨"out", some "fits[compress R]"⟩ true d
          :: rest ∧
      (∀ q, FitsAction.removeFile q ∉ rest) ∧
      (∀ q b dd, FitsAction.createFile q b dd ∉ rest) :=
  C2_path_resolution (DynamicImage.ImageLuma8 ⟨2, 1, [3, 4], Option.none⟩)
    ⟨"out", some "txt"⟩ FitsCompression.rice true
    ⟨fun p => p.ext == some "fits", fun _ => false⟩ 5 7
    ⟨"out", some "fits[compress R]"⟩
    (savefits (DynamicImage.ImageLuma8 ⟨2, 1, [3, 4], Option.none⟩)
      ⟨"out", some "txt"⟩ FitsCompression.rice true
      ⟨fun p => p.ext == some "fits", fun _ => false⟩ 5 7).2 rfl

/-- The header-record block of a successful write: the trace ends with the
three mandatory records `CAMERA`, `DATE-OBS` and `TIMESTAMP` followed by
the metadata block (empty exactly when no metadata is attached), all
targeted at the data HDU; the prefix holds the pixel write into the same
HDU and no header record other than the two primary-HDU marker keys. -/
theorem savefitsWrite_keys {img : DynamicImage} {path : FsPath}
    {c : FitsCompression} {ow : Bool} {fs : FsState} {cn dob : String}
    {ts : Nat} {fp : FsPath} {tr : List FitsAction}
    (h : (fp, tr) = savefitsWrite img path c ow fs cn dob ts) :
    ∃ pre,
      tr = pre ++ FitsAction.writeKey (dataHdu c) "CAMERA" (.str cn)
        :: FitsAction.writeKey (dataHdu c) "DATE-OBS" (.str dob)
        :: FitsAction.writeKey (dataHdu c) "TIMESTAMP" (.nat ts)
        :: metadataActs (dataHdu c) img.metadata ∧
      FitsAction.writeImage (dataHdu c) img.inner_pixels ∈ pre ∧
      (∀ h2 k v, FitsAction.writeKey h2 k v ∈ pre →
        k = "COMPRESSED_IMAGE" ∨ k = "COMPRESSION_ALGO") := by
  by_cases hc : c = FitsCompression.none
  · subst hc
    rw [savefitsWrite_none_eq] at h
    obtain ⟨-, h2⟩ := Prod.mk.injEq .. ▸ h
    refine ⟨(if ow && fs.pathExists (path.setExtension "fits") then
        [FitsAction.removeFile (path.setExtension "fits")] else [])
      ++ [FitsAction.createFile (path.setExtension "fits") ow
            (some ⟨img.image_type, img.image_size⟩),
          FitsAction.writeImage HduId.primary img.inner_pixels],
      ?_, ?_, ?_⟩
    · rw [h2]
      simp [dataHdu]
    · simp [dataHdu]
    · intro h2 k v hkv
      simp only [List.mem_append, List.mem_cons, List.not_mem_nil] at hkv
      rcases hkv with hkv | hkv | hkv | hkv
      · split at hkv <;> simp at hkv
      · simp at hkv
      · simp at hkv
      · exact absurd hkv id
  · rw [savefitsWrite_comp_eq _ _ _ _ _ _ _ _ hc] at h
    obtain ⟨-, h2⟩ := Prod.mk.injEq .. ▸ h
    refine ⟨(if ow && fs.pathExists (path.setExtension "fits") then
        [FitsAction.removeFile (path.setExtension "fits")] else [])
      ++ [FitsAction.createFile
            ((path.setExtension "fits").setExtension c.extension) ow
            Option.none,
          FitsAction.writeKey HduId.primary "COMPRESSED_IMAGE" (.str "T"),
          FitsAction.writeKey HduId.primary "COMPRESSION_ALGO"
            (.str c.toString),
          FitsAction.createImage "IMAGE" ⟨img.image_type, img.image_size⟩,
          FitsAction.writeImage HduId.image img.inner_pixels],
      ?_, ?_, ?_⟩
    · rw [h2]
      simp [dataHdu, hc]
    · simp [dataHdu, hc]
    · intro h2 k v hkv
      simp only [List.mem_append, List.mem_cons, List.not_mem_nil] at hkv
      rcases hkv with hkv | hkv | hkv | hkv | hkv | hkv | hkv
      · split at hkv <;> simp at hkv
      · simp at hkv
      · exact Or.inl (FitsAction.writeKey.injEq .. ▸ hkv).2.1
      · exact Or.inr (FitsAction.writeKey.injEq .. ▸ hkv).2.1
      · simp at hkv
      · simp at hkv
      · exact absurd hkv id

/-- C6: on every successful call, the mandatory records `CAMERA`,
`DATE-OBS` and `TIMESTAMP` are written into the HDU holding the pixel
data, with `CAMERA = "unknown"` exactly when no metadata is attached; the
optional records (`XBINNING` … `GAIN_MAX` and one record per
caller-supplied extended pair, in caller order with the caller's name and
text value — the `metadataActs` block) are written if and only if metadata
is attached: they follow the mandatory records when metadata is present,
and the rest of the trace contains no header record besides the primary
marker keys. -/
theorem C6_metadata_keys (img : DynamicImage) (path : FsPath)
    (c : FitsCompression) (ow : Bool) (fs : FsState) (now1 now2 : Int)
    (fp : FsPath) (tr : List FitsAction)
    (h : savefits img path c ow fs now1 now2 = (.ok fp, tr)) :
    ∃ pre dob ts,
      tr = pre ++ FitsAction.writeKey (dataHdu c) "CAMERA"
          (.str (match img.metadata with
                 | Option.some m => m.camera_name
                 | Option.none => "unknown"))
        :: FitsAction.writeKey (dataHdu c) "DATE-OBS" (.str dob)
        :: FitsAction.writeKey (dataHdu c) "TIMESTAMP" (.nat ts)
        :: metadataActs (dataHdu c) img.metadata ∧
      FitsAction.writeImage (dataHdu c) img.inner_pixels ∈ pre ∧
      (∀ h2 k v, FitsAction.writeKey h2 k v ∈ pre →
        k = "COMPRESSED_IMAGE" ∨ k = "COMPRESSION_ALGO") := by
  obtain ⟨-, hcase⟩ := savefits_ok_inv h
  rcases hcase with ⟨m, hm, -, hw⟩ | ⟨hm, hw⟩
  · obtain ⟨pre, h1, h2, h3⟩ := savefitsWrite_keys hw
    rw [hm] at h1
    refine ⟨pre, formatTimestampUtc m.timestamp,
      asMillisU64 m.timestamp.toNat, ?_, h2, h3⟩
    simp only [hm]
    exact h1
  · obtain ⟨pre, h1, h2, h3⟩ := savefitsWrite_keys hw
    rw [hm] at h1
    refine ⟨pre, formatTimestampUtc now1,
      asMillisU64 ((durationSinceEpoch now2).toOption.getD 0), ?_, h2, h3⟩
    simp only [hm]
    exact h1

/-- Witness for C6 at a concrete call: a 1×1 mono-8 image carrying
metadata (camera "cam1", one extended pair), uncompressed. -/
theorem C6_metadata_keys_witness :
    ∃ pre dob ts,
      (savefits (DynamicImage.ImageLuma8 ⟨1, 1, [5],
          some ⟨"cam1", 1000000000, 2, 2, 4, 4, 1, 20, 0, 0, 10, 10, 0, 100,
            [⟨"FOO", "bar"⟩]⟩⟩)
        ⟨"out", Option.none⟩ FitsCompression.none false
        ⟨fun _ => false, fun _ => false⟩ 5 7).2 =
      pre ++ FitsAction.writeKey (dataHdu FitsCompression.none) "CAMERA"
          (.str (match (DynamicImage.ImageLuma8 ⟨1, 1, [5],
              some ⟨"cam1", 1000000000, 2, 2, 4, 4, 1, 20, 0, 0, 10, 10, 0,
                100, [⟨"FOO", "bar"⟩]⟩⟩).metadata with
             | Option.some m => m.camera_name
             | Option.none => "unknown"))
        :: FitsAction.writeKey (dataHdu FitsCompression.none) "DATE-OBS"
             (.str dob)
        :: FitsAction.writeKey (dataHdu FitsCompression.none) "TIMESTAMP"
             (.nat ts)
        :: metadataActs (dataHdu FitsCompression.none)
             (DynamicImage.ImageLuma8 ⟨1, 1, [5],
               some ⟨"cam1", 1000000000, 2, 2, 4, 4, 1, 20, 0, 0, 10, 10, 0,
                 100, [⟨"FOO", "bar"⟩]⟩⟩).metadata ∧
      FitsAction.writeImage (dataHdu FitsCompression.none)
          (DynamicImage.ImageLuma8 ⟨1, 1, [5],
            some ⟨"cam1", 1000000000, 2, 2, 4, 4, 1, 20, 0, 0, 10, 10, 0,
              100, [⟨"FOO", "bar"⟩]⟩⟩).inner_pixels ∈ pre ∧
      (∀ h2 k v, FitsAction.writeKey h2 k v ∈ pre →
        k = "COMPRESSED_IMAGE" ∨ k = "COMPRESSION_ALGO") :=
  C6_metadata_keys (DynamicImage.ImageLuma8 ⟨1, 1, [5],
      some ⟨"cam1", 1000000000, 2, 2, 4, 4, 1, 20, 0, 0, 10, 10, 0, 100,
        [⟨"FOO", "bar"⟩]⟩⟩)
    ⟨"out", Option.none⟩ FitsCompression.none false
    ⟨fun _ => false, fun _ => false⟩ 5 7 ⟨"out", some "fits"⟩
    (savefits (DynamicImage.ImageLuma8 ⟨1, 1, [5],
        some ⟨"cam1", 1000000000, 2, 2, 4, 4, 1, 20, 0, 0, 10, 10, 0, 100,
          [⟨"FOO", "bar"⟩]⟩⟩)
      ⟨"out", Option.none⟩ FitsCompression.none false
      ⟨fun _ => false, fun _ => false⟩ 5 7).2 rfl

/-- C7 (amended): when metadata is attached, `DATE-OBS` and `TIMESTAMP`
are both derived from the metadata's timestamp — the same instant; when no
metadata is attached, each key is derived from its own reading of the
system clock (the clock is read once for `DATE-OBS` and again for
`TIMESTAMP`), so the two written values may denote different instants. -/
theorem C7_time_source (img : DynamicImage) (path : FsPath)
    (c : FitsCompression) (ow : Bool) (fs : FsState) (now1 now2 : Int)
    (fp : FsPath) (tr : List FitsAction)
    (h : savefits img path c ow fs now1 now2 = (.ok fp, tr)) :
    (∀ m, img.metadata = some m →
      FitsAction.writeKey (dataHdu c) "DATE-OBS"
        (.str (formatTimestampUtc m.timestamp)) ∈ tr ∧
      FitsAction.writeKey (dataHdu c) "TIMESTAMP"
        (.nat (asMillisU64 m.timestamp.toNat)) ∈ tr) ∧
    (img.metadata = Option.none →
      FitsAction.writeKey (dataHdu c) "DATE-OBS"
        (.str (formatTimestampUtc now1)) ∈ tr ∧
      FitsAction.writeKey (dataHdu c) "TIMESTAMP"
        (.nat (asMillisU64 ((durationSinceEpoch now2).toOption.getD 0)))
        ∈ tr) := by
  obtain ⟨-, hcase⟩ := savefits_ok_inv h
  rcases hcase with ⟨m, hm, -, hw⟩ | ⟨hm, hw⟩
  · have h2 : tr = (savefitsWrite img path c ow fs m.camera_name
        (formatTimestampUtc m.timestamp) (asMillisU64 m.timestamp.toNat)).2 :=
      congrArg Prod.snd hw
    constructor
    · intro m' hm'
      rw [hm] at hm'
      obtain rfl := (Option.some.injEq .. ▸ hm').symm
      rw [h2]
      exact ⟨dateobs_mem_savefitsWrite .., timestamp_mem_savefitsWrite ..⟩
    · intro h0
      rw [hm] at h0
      simp at h0
  · have h2 : tr = (savefitsWrite img path c ow fs "unknown"
        (formatTimestampUtc now1)
        (asMillisU64 ((durationSinceEpoch now2).toOption.getD 0))).2 :=
      congrArg Prod.snd hw
    constructor
    · intro m' hm'
      rw [hm] at hm'
      simp at hm'
    · intro h0
      rw [h2]
      exact ⟨dateobs_mem_savefitsWrite .., timestamp_mem_savefitsWrite ..⟩

/-- Witness for C7's amended statement at a concrete call: metadata with
timestamp 10⁹ ns. -/
theorem C7_time_source_witness :
    (∀ m, (DynamicImage.ImageLuma8 ⟨1, 1, [5],
        some ⟨"cam1", 1000000000, 2, 2, 4, 4, 1, 20, 0, 0, 10, 10, 0, 100,
          []⟩⟩).metadata = some m →
      FitsAction.writeKey (dataHdu FitsCompression.none) "DATE-OBS"
        (.str (formatTimestampUtc m.timestamp)) ∈
        (savefits (DynamicImage.ImageLuma8 ⟨1, 1, [5],
            some ⟨"cam1", 1000000000, 2, 2, 4, 4, 1, 20, 0, 0, 10, 10, 0,
              100, []⟩⟩)
          ⟨"out", Option.none⟩ FitsCompression.none false
          ⟨fun _ => false, fun _ => false⟩ 5 7).2 ∧
      FitsAction.writeKey (dataHdu FitsCompression.none) "TIMESTAMP"
        (.nat (asMillisU64 m.timestamp.toNat)) ∈
        (savefits (DynamicImage.ImageLuma8 ⟨1, 1, [5],
            some ⟨"cam1", 1000000000, 2, 2, 4, 4, 1, 20, 0, 0, 10, 10, 0,
              100, []⟩⟩)
          ⟨"out", Option.none⟩ FitsCompression.none false
          ⟨fun _ => false, fun _ => false⟩ 5 7).2) ∧
    ((DynamicImage.ImageLuma8 ⟨1, 1, [5],
        some ⟨"cam1", 1000000000, 2, 2, 4, 4, 1, 20, 0, 0, 10, 10, 0, 100,
          []⟩⟩).metadata = Option.none →
      FitsAction.writeKey (dataHdu FitsCompression.none) "DATE-OBS"
        (.str (formatTimestampUtc 5)) ∈
        (savefits (DynamicImage.ImageLuma8 ⟨1, 1, [5],
            some ⟨"cam1", 1000000000, 2, 2, 4, 4, 1, 20, 0, 0, 10, 10, 0,
              100, []⟩⟩)
          ⟨"out", Option.none⟩ FitsCompression.none false
          ⟨fun _ => false, fun _ => false⟩ 5 7).2 ∧
      FitsAction.writeKey (dataHdu FitsCompression.none) "TIMESTAMP"
        (.nat (asMillisU64 ((durationSinceEpoch 7).toOption.getD 0))) ∈
        (savefits (DynamicImage.ImageLuma8 ⟨1, 1, [5],
            some ⟨"cam1", 1000000000, 2, 2, 4, 4, 1, 20, 0, 0, 10, 10, 0,
              100, []⟩⟩)
          ⟨"out", Option.none⟩ FitsCompression.none false
          ⟨fun _ => false, fun _ => false⟩ 5 7).2) :=
  C7_time_source (DynamicImage.ImageLuma8 ⟨1, 1, [5],
      some ⟨"cam1", 1000000000, 2, 2, 4, 4, 1, 20, 0, 0, 10, 10, 0, 100,
        []⟩⟩)
    ⟨"out", Option.none⟩ FitsCompression.none false
    ⟨fun _ => false, fun _ => false⟩ 5 7 ⟨"out", some "fits"⟩
    (savefits (DynamicImage.ImageLuma8 ⟨1, 1, [5],
        some ⟨"cam1", 1000000000, 2, 2, 4, 4, 1, 20, 0, 0, 10, 10, 0, 100,
          []⟩⟩)
      ⟨"out", Option.none⟩ FitsCompression.none false
      ⟨fun _ => false, fun _ => false⟩ 5 7).2 rfl

/-- Counterexample to C7 as stated: a successful no-metadata run in which
the clock advances by one second between the two `SystemTime::now()`
calls (first reading 0 ns, second reading 10⁹ ns).  The written `DATE-OBS`
is the formatting of instant 0 while the written `TIMESTAMP` is 1000 ms:
1000 ms is not the millisecond value of instant 0, and the written
`DATE-OBS` string is not the formatting of the `TIMESTAMP` source instant
10⁹ ns either — the two written values do not denote the same instant. -/
theorem C7_counterexample :
    (savefits (DynamicImage.ImageLuma8 ⟨1, 1, [0], Option.none⟩)
        ⟨"out", Option.none⟩ FitsCompression.none false
        ⟨fun _ => false, fun _ => false⟩ 0 1000000000).1 =
      Except.ok ⟨"out", some "fits"⟩ ∧
    FitsAction.writeKey HduId.primary "DATE-OBS"
        (.str (formatTimestampUtc 0)) ∈
      (savefits (DynamicImage.ImageLuma8 ⟨1, 1, [0], Option.none⟩)
        ⟨"out", Option.none⟩ FitsCompression.none false
        ⟨fun _ => false, fun _ => false⟩ 0 1000000000).2 ∧
    FitsAction.writeKey HduId.primary "TIMESTAMP" (.nat 1000) ∈
      (savefits (DynamicImage.ImageLuma8 ⟨1, 1, [0], Option.none⟩)
        ⟨"out", Option.none⟩ FitsCompression.none false
        ⟨fun _ => false, fun _ => false⟩ 0 1000000000).2 ∧
    (1000 : Nat) ≠ asMillisU64 ((durationSinceEpoch 0).toOption.getD 0) ∧
    formatTimestampUtc 0 ≠ formatTimestampUtc 1000000000 := by
  refine ⟨rfl, ?_, ?_, by decide, ?_⟩
  · simp [show (savefits (DynamicImage.ImageLuma8 ⟨1, 1, [0], Option.none⟩)
        ⟨"out", Option.none⟩ FitsCompression.none false
        ⟨fun _ => false, fun _ => false⟩ 0 1000000000).2 =
      [FitsAction.createFile ⟨"out", some "fits"⟩ false
         (some ⟨ImageType.unsignedByte, [1, 1]⟩),
       FitsAction.writeImage HduId.primary [0],
       FitsAction.writeKey HduId.primary "CAMERA" (.str "unknown"),
       FitsAction.writeKey HduId.primary "DATE-OBS"
         (.str (formatTimestampUtc 0)),
       FitsAction.writeKey HduId.primary "TIMESTAMP" (.nat 1000)] from rfl]
  · simp [show (savefits (DynamicImage.ImageLuma8 ⟨1, 1, [0], Option.none⟩)
        ⟨"out", Option.none⟩ FitsCompression.none false
        ⟨fun _ => false, fun _ => false⟩ 0 1000000000).2 =
      [FitsAction.createFile ⟨"out", some "fits"⟩ false
         (some ⟨ImageType.unsignedByte, [1, 1]⟩),
       FitsAction.writeImage HduId.primary [0],
       FitsAction.writeKey HduId.primary "CAMERA" (.str "unknown"),
       FitsAction.writeKey HduId.primary "DATE-OBS"
         (.str (formatTimestampUtc 0)),
       FitsAction.writeKey HduId.primary "TIMESTAMP" (.nat 1000)] from rfl]
  · decide
